import Mathlib

/-!
Verification development for the chat-nemotron asynchronous job dispatch
subsystem: a shallow embedding of the retry policy, cache store, idempotency
middleware, routing, and the worker job-state machine, together with
theorems checking the system's documented properties against the embedded
code.

Conventions of the embedding:
* Machine integers and counters are `Nat` (no overflow is relevant here).
* Python exceptions are modelled with `Except`; an operation that catches
  every exception is modelled as a total function.
* JSON serialisation round-trips are abstracted away: a record stored in the
  cache is modelled as the record itself (`json.dumps`/`json.loads` and the
  pydantic validators are inverse on the values this system stores).
* Wall-clock effects (generated text, measured latency) enter as explicit
  oracle arguments to the functions that observe them.
-/

namespace ChatNemotron

/-! ## Settings (src/app/config/settings.py) -/

def MAX_RETRIES : Nat := 3
def RETRY_DELAY : Nat := 2
def RETRY_BACKOFF : Nat := 2
def CACHE_TTL : Nat := 3600
def IDEMPOTENCY_TTL : Nat := 86400
def JOB_TTL : Nat := 86400
def QUEUE_GPU_REQUESTS : String := "chat_gpu_requests"
def QUEUE_API_REQUESTS : String := "chat_api_requests"
def QUEUE_RESPONSES : String := "chat_responses"

/-! ## Retry policy (src/app/utils/retry.py, `RetryPolicy.execute_with_retry`)

The wrapped operation is modelled as `op : Nat → Except String α`: attempt
number `n` either returns a value or raises the error `op n` describes.
`retryable e` models `isinstance(e, retry_on)`. The trace records how many
times the operation was invoked, the backoff sleeps performed between
consecutive attempts (in seconds, in order), and the final outcome. -/

/-- Final error of a retried operation: either the `RuntimeError` tagged
`MAX_RETRIES_EXCEEDED` wrapping the last observed error (raised when
`attempt == max_retries` still fails with a retryable error), or an error
outside `retry_on` that the `except retry_on` clause does not catch and
which therefore propagates unchanged. -/
inductive RetryErr where
  | maxRetriesExceeded (last : String)
  | propagated (e : String)
  deriving Repr, DecidableEq

/-- Observable trace of one `execute_with_retry` call. -/
structure RetryTrace (α : Type) where
  calls : Nat
  delays : List Nat
  outcome : Except RetryErr α
  deriving Repr

/-- Body of the `for attempt in range(max_retries + 1)` loop, from the
iteration `attempt`; `remaining = max_retries - attempt` counts the retries
still allowed, so `remaining = 0` is the source's `attempt == max_retries`
test. The sleep before the next attempt is `base_delay * backoff ** attempt`. -/
def retryAux {α : Type} (op : Nat → Except String α) (retryable : String → Bool)
    (base_delay backoff : Nat) : Nat → Nat → RetryTrace α
  | attempt, remaining =>
    match op attempt with
    | .ok a => ⟨1, [], .ok a⟩
    | .error e =>
      if retryable e then
        match remaining with
        | 0 => ⟨1, [], .error (.maxRetriesExceeded e)⟩
        | r + 1 =>
          let rest := retryAux op retryable base_delay backoff (attempt + 1) r
          ⟨rest.calls + 1, base_delay * backoff ^ attempt :: rest.delays, rest.outcome⟩
      else ⟨1, [], .error (.propagated e)⟩

/-- `RetryPolicy.execute_with_retry(func, max_retries, base_delay, backoff,
retry_on)`: attempts start at 0 with `max_retries` retries remaining. -/
def execute_with_retry {α : Type} (op : Nat → Except String α)
    (max_retries base_delay backoff : Nat) (retryable : String → Bool) :
    RetryTrace α :=
  retryAux op retryable base_delay backoff 0 max_retries

/-! ## Cache store (src/app/utils/cache.py, `RedisCache`)

The underlying Redis client is modelled by a key/value store (value plus the
TTL it was written with) and a `failing` flag: when `failing` is set every
client call raises, modelling an unreachable server. Values are modelled
post-serialisation as strings (`set` serialises dict/list arguments before
writing). `RedisCache` methods wrap every client call in `try/except` and
are therefore total functions here: an exception never escapes them. -/

/-- One stored entry: value and the TTL it was written with (`none` for a
plain `SET` without expiry). There is no clock in the model, so expiry
itself is not modelled; the TTL records what the code requested. -/
abbrev KVStore := List (String × String × Option Nat)

def storeLookup : KVStore → String → Option (String × Option Nat)
  | [], _ => none
  | (k, v, t) :: rest, key => if k = key then some (v, t) else storeLookup rest key

def storeDelete (l : KVStore) (key : String) : KVStore :=
  l.filter (fun e => e.1 ≠ key)

def storeSet (l : KVStore) (key value : String) (ttl : Option Nat) : KVStore :=
  (key, value, ttl) :: storeDelete l key

/-- The connected Redis client: its data plus whether calls currently fail. -/
structure RedisClient where
  store : KVStore
  failing : Bool
  deriving Repr

/-- `client.get(key)` — raises when the server is unreachable. -/
def RedisClient.cget (c : RedisClient) (key : String) : Except String (Option String) :=
  if c.failing then .error "connection error"
  else .ok ((storeLookup c.store key).map (·.1))

/-- `client.setex(key, ttl, value)` / `client.set(key, value)`. -/
def RedisClient.cset (c : RedisClient) (key value : String) (ttl : Option Nat) :
    Except String RedisClient :=
  if c.failing then .error "connection error"
  else .ok { c with store := storeSet c.store key value ttl }

/-- `client.delete(key)`. -/
def RedisClient.cdel (c : RedisClient) (key : String) : Except String RedisClient :=
  if c.failing then .error "connection error"
  else .ok { c with store := storeDelete c.store key }

/-- `client.exists(key) > 0`. -/
def RedisClient.cexists (c : RedisClient) (key : String) : Except String Bool :=
  if c.failing then .error "connection error"
  else .ok (storeLookup c.store key).isSome

/-- The `RedisCache` singleton: `client` is `none` before `connect()`. -/
structure RedisCache where
  client : Option RedisClient
  deriving Repr

/-- Python truthiness of the `ttl` argument in `RedisCache.set`:
`if ttl: setex ... else: set ...` — `None` and `0` both take the
no-expiry branch. -/
def truthyTTL : Option Nat → Option Nat
  | none => none
  | some t => if t = 0 then none else some t

/-- `RedisCache.get`: returns `None` when not connected or when the client
call raises (the `except` clause swallows the error). -/
def RedisCache.get (self : RedisCache) (key : String) : Option String :=
  match self.client with
  | none => none
  | some c =>
    match c.cget key with
    | .error _ => none
    | .ok v => v

/-- `RedisCache.set`: writes through, silently doing nothing when not
connected or when the client call raises. -/
def RedisCache.set (self : RedisCache) (key value : String) (ttl : Option Nat) :
    RedisCache :=
  match self.client with
  | none => self
  | some c =>
    match c.cset key value (truthyTTL ttl) with
    | .error _ => self
    | .ok c2 => { client := some c2 }

/-- `RedisCache.delete`: silently a no-op when not connected or failing. -/
def RedisCache.delete (self : RedisCache) (key : String) : RedisCache :=
  match self.client with
  | none => self
  | some c =>
    match c.cdel key with
    | .error _ => self
    | .ok c2 => { client := some c2 }

/-- `RedisCache.exists`: returns `False` when not connected or failing. -/
def RedisCache.existsKey (self : RedisCache) (key : String) : Bool :=
  match self.client with
  | none => false
  | some c =>
    match c.cexists key with
    | .error _ => false
    | .ok b => b

/-- The cache is unavailable: never connected, or the server unreachable. -/
def RedisCache.unavailable (self : RedisCache) : Prop :=
  self.client = none ∨ ∃ c, self.client = some c ∧ c.failing = true

/-! ## Data model (src/app/model/request.py, src/app/model/response.py)

`temperature` (a float) and the timestamp `created_at` (set from the clock at
construction) are not referenced by any verified property and are omitted;
every other field relevant to the dispatch subsystem is kept. -/

inductive ExecutionMode where
  | auto | gpu | api
  deriving Repr, DecidableEq

inductive JobStatus where
  | pending | processing | completed | failed
  deriving Repr, DecidableEq

/-- `ChatResponse`: the generated text, the backend tag, and the measured
latency (an opaque numeric oracle here; the code stores a rounded float). -/
structure ChatResponse where
  response : String
  mode : String
  latency_ms : Option Nat := none
  deriving Repr, DecidableEq

/-- `ChatAsyncResponse`: the persisted Job record. -/
structure ChatAsyncResponse where
  job_id : String
  status : JobStatus
  idempotency_key : String
  result : Option ChatResponse := none
  error : Option String := none
  deriving Repr, DecidableEq

/-- `ChatRequest` after pydantic validation (fields the dispatch subsystem
reads). `idempotency_key` is a required `str` field. -/
structure ChatRequest where
  message : String
  idempotency_key : String
  priority : Nat := 5
  mode : ExecutionMode := .auto
  deriving Repr, DecidableEq

/-- The `request` dict carried inside a queue message, before validation:
`dict.get` returns `None` both for an absent key and for an explicit `null`,
so each field is an `Option`. -/
structure ReqData where
  message : Option String := none
  idempotency_key : Option String := none
  priority : Option Nat := none
  mode : Option ExecutionMode := none
  deriving Repr, DecidableEq

/-- `ChatRequest(**request_data)`: pydantic validation. `message` is required
with `min_length=1`, `idempotency_key` is required (absent or `None` both
fail validation), `priority` must lie in 1..10 when given, other fields
default. -/
def parseChatRequest (d : ReqData) : Except String ChatRequest :=
  match d.message, d.idempotency_key with
  | some m, some k =>
    if m.length < 1 then .error "validation error: message too short"
    else
      match d.priority with
      | some p =>
        if p < 1 ∨ 10 < p then .error "validation error: priority out of range"
        else .ok { message := m, idempotency_key := k, priority := p,
                   mode := d.mode.getD .auto }
      | none => .ok { message := m, idempotency_key := k,
                      mode := d.mode.getD .auto }
  | _, _ => .error "validation error: missing required field"

/-! ## Job store and worker (src/app/worker/base_worker.py)

The Job Store is the `job:{job_id}` slice of the cache: `_update_job_status`
serialises a `ChatAsyncResponse` and writes it under `job:{job_id}` with
`ttl=JOB_TTL`, and `get_job_status` parses it back; the JSON round-trip is
abstracted, so the store maps `job_id` directly to the record. Each write is
a full-record overwrite. The store is taken healthy here (the unavailable
case is covered by the cache-store theorems). -/

abbrev JobStore := List (String × ChatAsyncResponse)

def getJob : JobStore → String → Option ChatAsyncResponse
  | [], _ => none
  | (k, r) :: rest, jid => if k = jid then some r else getJob rest jid

def setJob (s : JobStore) (jid : String) (r : ChatAsyncResponse) : JobStore :=
  (jid, r) :: s.filter (fun e => e.1 ≠ jid)

/-- Python `a or b` on an `Optional[str]`: `None` and `""` are falsy. -/
def pyOrStr : Option String → String → String
  | none, d => d
  | some s, d => if s = "" then d else s

/-- Python truthiness of an `Optional[str]` (the `if job_id:` guard). -/
def pyTruthy : Option String → Bool
  | none => false
  | some s => s ≠ ""

/-- `BaseWorker._update_job_status`: builds the `ChatAsyncResponse` with
`idempotency_key = idempotency_key or job_id`, overwrites `job:{job_id}` in
the store, and publishes the same record to the response queue. Returns the
updated store and the record written. -/
def update_job_status (store : JobStore) (job_id : String) (status : JobStatus)
    (result : Option ChatResponse) (error : Option String)
    (idempotency_key : Option String) : JobStore × ChatAsyncResponse :=
  let resp : ChatAsyncResponse :=
    { job_id := job_id, status := status,
      idempotency_key := pyOrStr idempotency_key job_id,
      result := result, error := error }
  (setJob store job_id resp, resp)

/-- The parsed body of a Dispatch Envelope: `body.get` yields `None` for any
absent field. -/
structure MsgBody where
  job_id : Option String := none
  request : Option ReqData := none
  target_mode : Option String := none
  deriving Repr, DecidableEq

/-- Observable outcome of one `BaseWorker.process_message` call: the final
job store, the job records written to it in order (each also published to
the response queue), and whether the handler re-raised (NACK path). -/
structure WorkerRun where
  store : JobStore
  writes : List ChatAsyncResponse
  raised : Bool
  deriving Repr, DecidableEq

/-- `BaseWorker.process_message` on one delivered envelope.

* `msg` is `json.loads(message.body)`: `.error` models a malformed body
  (rejected before any `job_id` is known, so no status is written).
* `gen` is the outcome of `_process_with_retry` for this delivery: the
  `ChatResponse` produced on success, or the error string after the retry
  policy gave up (the retry internals are verified separately).

Control flow mirrors the source: wrong `target_mode` returns without
writing; otherwise PROCESSING is written first (a `None` `job_id` fails
pydantic validation inside `_update_job_status` before anything is written,
and the `if job_id:` guard then skips the FAILED write — likewise when
`job_id` is the empty string, which is falsy); then `ChatRequest(**request_data)`
is validated and the generation outcome decides COMPLETED versus FAILED. -/
def process_message (queue_type : String) (msg : Except String MsgBody)
    (gen : Except String ChatResponse) (store : JobStore) : WorkerRun :=
  match msg with
  | .error _ => { store := store, writes := [], raised := true }
  | .ok body =>
    if body.target_mode ≠ some queue_type then
      { store := store, writes := [], raised := false }
    else
      match body.job_id with
      | none => { store := store, writes := [], raised := true }
      | some jid =>
        let ikey := body.request.bind (fun rd => rd.idempotency_key)
        let step1 := update_job_status store jid .processing none none ikey
        let onFail := fun (e : String) =>
          if pyTruthy (some jid) then
            let step2 := update_job_status step1.1 jid .failed none (some e) ikey
            { store := step2.1, writes := [step1.2, step2.2], raised := true :
              WorkerRun }
          else
            { store := step1.1, writes := [step1.2], raised := true : WorkerRun }
        match body.request with
        | none => onFail "AttributeError: request data is None"
        | some rd =>
          match parseChatRequest rd with
          | .error e => onFail e
          | .ok _req =>
            match gen with
            | .ok r =>
              let step2 := update_job_status step1.1 jid .completed (some r) none ikey
              { store := step2.1, writes := [step1.2, step2.2], raised := false }
            | .error e => onFail e

/-! ## Single-queue worker variant (src/app/worker/chat_worker.py) -/

/-- `ChatWorker._update_job_status`: always uses `job_id` itself as the
record's `idempotency_key` (writes under `job:{job_id}`, `ttl=IDEMPOTENCY_TTL`). -/
def ChatWorker.update_job_status (store : JobStore) (job_id : String)
    (status : JobStatus) (result : Option ChatResponse) (error : Option String) :
    JobStore × ChatAsyncResponse :=
  let resp : ChatAsyncResponse :=
    { job_id := job_id, status := status, idempotency_key := job_id,
      result := result, error := error }
  (setJob store job_id resp, resp)

/-- `ChatWorker.get_job_status`: parses the cached record if present,
otherwise returns the synthetic PENDING record. -/
def ChatWorker.get_job_status (store : JobStore) (job_id : String) :
    ChatAsyncResponse :=
  match getJob store job_id with
  | some r => r
  | none => { job_id := job_id, status := .pending, idempotency_key := job_id }

/-! ## Idempotency middleware (src/app/middleware/idempotency.py)

The wrapped endpoint function is modelled by the outcome `op` of one
execution. Its Python return value is either a `dict` — abstracted by its
JSON text, which is what `cache_response` stores and `get_cached_response`
parses back — or a non-dict object such as the pydantic `ChatAsyncResponse`
the chat endpoints return, which the `isinstance(result, dict)` test
excludes from caching. -/

/-- A wrapped endpoint's return value. -/
inductive EndpointResult where
  | dictVal (s : String)
  | modelVal (r : ChatAsyncResponse)
  deriving Repr, DecidableEq

/-- `isinstance(result, dict)`. -/
def EndpointResult.isDict : EndpointResult → Bool
  | .dictVal _ => true
  | .modelVal _ => false

/-- Serialised form of a dict result (only applied to dicts). -/
def EndpointResult.serialize : EndpointResult → String
  | .dictVal s => s
  | .modelVal _ => ""

/-- Error surfaced by the wrapper: the `ValueError` carrying the
`IDEMPOTENCY_CONFLICT` contract, or an error raised by the operation itself
(re-raised after the `finally` clause clears the marker). -/
inductive MwErr where
  | conflict
  | opError (e : String)
  deriving Repr, DecidableEq

/-- Observable outcome of one pass through the `idempotent` wrapper. -/
structure MwRun where
  cache : RedisCache
  outcome : Except MwErr EndpointResult
  opCalls : Nat
  deriving Repr

def idempotencyKeyFor (endpoint key : String) : String :=
  "idempotency:" ++ endpoint ++ ":" ++ key

def processingKeyFor (endpoint key : String) : String :=
  "processing:" ++ endpoint ++ ":" ++ key

/-- `get_cached_response`: `if cached:` is Python truthiness, so an empty
cached string is treated as a miss; a hit is parsed back to the dict it
serialises. -/
def get_cached_response (cache : RedisCache) (idempotency_key endpoint : String) :
    Option String :=
  match cache.get (idempotencyKeyFor endpoint idempotency_key) with
  | none => none
  | some s => if s = "" then none else some s

/-- `is_processing`. -/
def is_processing (cache : RedisCache) (idempotency_key endpoint : String) : Bool :=
  cache.existsKey (processingKeyFor endpoint idempotency_key)

/-- One call through `IdempotencyMiddleware.idempotent(endpoint)` applied to
a request bearing `idempotency_key = key`, where `op` is the outcome the
wrapped function produces if executed. Mirrors the wrapper body: cached
response short-circuits; else a processing marker raises the conflict; else
the marker is set (ttl 300), the function runs, a dict result is cached
under the idempotency key with `ttl=IDEMPOTENCY_TTL`, and the `finally`
clause deletes the marker whether the function returned or raised. -/
def idempotent_run (endpoint key : String) (op : Except String EndpointResult)
    (cache : RedisCache) : MwRun :=
  match get_cached_response cache key endpoint with
  | some s => { cache := cache, outcome := .ok (.dictVal s), opCalls := 0 }
  | none =>
    if is_processing cache key endpoint then
      { cache := cache, outcome := .error .conflict, opCalls := 0 }
    else
      let c1 := cache.set (processingKeyFor endpoint key) "1" (some 300)
      match op with
      | .ok result =>
        let c2 :=
          if result.isDict then
            c1.set (idempotencyKeyFor endpoint key) result.serialize
              (some IDEMPOTENCY_TTL)
          else c1
        { cache := c2.delete (processingKeyFor endpoint key),
          outcome := .ok result, opCalls := 1 }
      | .error e =>
        { cache := c1.delete (processingKeyFor endpoint key),
          outcome := .error (.opError e), opCalls := 1 }

/-! ## Router (src/app/controller/chat_controller.py, `_route_to_queue`, and
src/app/service/queue_service.py, `publish_chat_request`)

`job_id` is a fresh UUID generated inside `publish_chat_request`; it enters
as an argument. `cuda_available` is the GPU backend's availability snapshot
(`nemotron_engine.cuda_available`). -/

/-- The message `publish_chat_request` places on a queue. -/
structure DispatchMsg where
  queue : String
  job_id : String
  request : ChatRequest
  target_mode : String
  priority : Nat
  deriving Repr, DecidableEq

/-- `HTTPException(status_code, detail)`. -/
structure HTTPExc where
  status_code : Nat
  detail : String
  deriving Repr, DecidableEq

/-- `QueueService._get_queue_name`. -/
def get_queue_name (mode : String) : String :=
  if mode = "gpu" then QUEUE_GPU_REQUESTS
  else if mode = "api" then QUEUE_API_REQUESTS
  else ""

/-- `QueueService.publish_chat_request`: builds the envelope
`{job_id, request, target_mode}` and publishes it (persistent, with the
request's priority) to the queue for `target_mode`, returning `job_id`. -/
def publish_chat_request (request : ChatRequest) (target_mode : String)
    (job_id : String) : DispatchMsg × String :=
  ({ queue := get_queue_name target_mode, job_id := job_id, request := request,
     target_mode := target_mode, priority := request.priority }, job_id)

/-- Observable outcome of `_route_to_queue`: the envelopes published and the
returned `(job_id, target_mode)` pair, or the `HTTPException` raised. -/
structure RouteResult where
  published : List DispatchMsg
  outcome : Except HTTPExc (String × String)
  deriving Repr

/-- `_route_to_queue(request)` given the GPU-availability snapshot and the
fresh `job_id` the publish step would generate. FORCED_GPU without CUDA
raises 503 before anything is published; otherwise the chosen queue receives
exactly one envelope. -/
def route_to_queue (request : ChatRequest) (cuda_available : Bool)
    (job_id : String) : RouteResult :=
  match request.mode with
  | .gpu =>
    if ¬ cuda_available then
      { published := [],
        outcome := .error
          { status_code := 503,
            detail := "GPU mode requested but not available. Use /auto or /api instead." } }
    else
      let p := publish_chat_request request "gpu" job_id
      { published := [p.1], outcome := .ok (p.2, "gpu") }
  | .api =>
    let p := publish_chat_request request "api" job_id
    { published := [p.1], outcome := .ok (p.2, "api") }
  | .auto =>
    if cuda_available then
      let p := publish_chat_request request "gpu" job_id
      { published := [p.1], outcome := .ok (p.2, "gpu") }
    else
      let p := publish_chat_request request "api" job_id
      { published := [p.1], outcome := .ok (p.2, "api") }

/-! ## Helper lemmas -/

theorem idemKey_ne_procKey (e k e2 k2 : String) :
    idempotencyKeyFor e k ≠ processingKeyFor e2 k2 := by
  simp only [idempotencyKeyFor, processingKeyFor]
  intro h
  have hd := congrArg String.data h
  simp [String.data_append] at hd

theorem storeLookup_delete_self (l : KVStore) (k : String) :
    storeLookup (storeDelete l k) k = none := by
  induction l with
  | nil => rfl
  | cons e rest ih =>
    obtain ⟨k1, v1, t1⟩ := e
    by_cases h : k1 = k
    · simp [storeDelete, storeLookup, h] at ih ⊢
      exact ih
    · simp [storeDelete, storeLookup, h] at ih ⊢
      exact ih

theorem storeLookup_delete_ne (l : KVStore) (k key : String) (h : key ≠ k) :
    storeLookup (storeDelete l k) key = storeLookup l key := by
  induction l with
  | nil => rfl
  | cons e rest ih =>
    obtain ⟨k1, v1, t1⟩ := e
    by_cases h1 : k1 = k
    · subst h1
      simp [storeDelete, storeLookup, Ne.symm h] at ih ⊢
      exact ih
    · by_cases h2 : k1 = key
      · subst h2
        simp [storeDelete, storeLookup, h1]
      · simp [storeDelete, storeLookup, h1, h2] at ih ⊢
        exact ih

theorem storeLookup_set_self (l : KVStore) (k v : String) (t : Option Nat) :
    storeLookup (storeSet l k v t) k = some (v, t) := by
  simp [storeSet, storeLookup]

theorem storeLookup_set_ne (l : KVStore) (k key v : String) (t : Option Nat)
    (h : key ≠ k) :
    storeLookup (storeSet l k v t) key = storeLookup l key := by
  simp [storeSet, storeLookup, Ne.symm h]
  exact storeLookup_delete_ne l k key h

theorem getJob_setJob_self (s : JobStore) (jid : String) (r : ChatAsyncResponse) :
    getJob (setJob s jid r) jid = some r := by
  simp [setJob, getJob]

/-! ## Claim theorems -/

/-- C3: for every operation that fails on every attempt with a retryable
error, `execute_with_retry` with `max_retries=3, base_delay=2, backoff=2`
(the configured settings) invokes the operation exactly 4 times, sleeps 2,
4 and 8 seconds between consecutive attempts, and then raises
`MaxRetriesExceeded` wrapping the last observed error. -/
theorem retry_exhaustion_c3 {α : Type} (op : Nat → Except String α)
    (retryable : String → Bool)
    (h : ∀ n, n ≤ 3 → ∃ e, op n = .error e ∧ retryable e = true) :
    ∃ e3, op 3 = .error e3 ∧
      execute_with_retry op MAX_RETRIES RETRY_DELAY RETRY_BACKOFF retryable =
        { calls := 4, delays := [2, 4, 8],
          outcome := .error (.maxRetriesExceeded e3) } := by
  obtain ⟨e0, h0, hr0⟩ := h 0 (by norm_num)
  obtain ⟨e1, h1, hr1⟩ := h 1 (by norm_num)
  obtain ⟨e2, h2, hr2⟩ := h 2 (by norm_num)
  obtain ⟨e3, h3, hr3⟩ := h 3 (by norm_num)
  refine ⟨e3, h3, ?_⟩
  simp [execute_with_retry, MAX_RETRIES, RETRY_DELAY, RETRY_BACKOFF,
    retryAux, h0, hr0, h1, hr1, h2, hr2, h3, hr3]

/-- Witness for C3: a concrete always-failing retryable operation gives 4
calls, delays 2, 4, 8, and `MaxRetriesExceeded` wrapping the last error. -/
theorem retry_exhaustion_c3_witness :
    execute_with_retry (fun _ : Nat => (Except.error "boom" : Except String Nat))
        MAX_RETRIES RETRY_DELAY RETRY_BACKOFF (fun _ => true) =
      { calls := 4, delays := [2, 4, 8],
        outcome := .error (.maxRetriesExceeded "boom") } := by
  obtain ⟨e3, he, hr⟩ := retry_exhaustion_c3
    (fun _ => (.error "boom" : Except String Nat)) (fun _ => true)
    (fun _ _ => ⟨"boom", rfl, rfl⟩)
  have he2 : e3 = "boom" := by
    simpa using he.symm
  rw [he2] at hr
  exact hr

/-- C8: an error outside `retryable_error_set` propagates immediately —
whichever attempt it occurs on, the operation is not attempted again, no
backoff sleep happens, and the error is not wrapped in `MaxRetriesExceeded`. -/
theorem retry_nonretryable_c8 {α : Type} (op : Nat → Except String α)
    (retryable : String → Bool) (e : String) (hr : retryable e = false) :
    (∀ attempt remaining base_delay backoff, op attempt = .error e →
      retryAux op retryable base_delay backoff attempt remaining =
        ⟨1, [], .error (.propagated e)⟩) ∧
    (∀ max_retries base_delay backoff, op 0 = .error e →
      execute_with_retry op max_retries base_delay backoff retryable =
        ⟨1, [], .error (.propagated e)⟩) := by
  constructor
  · intro attempt remaining base_delay backoff hop
    rw [retryAux]
    simp [hop, hr]
  · intro max_retries base_delay backoff hop
    rw [execute_with_retry, retryAux]
    simp [hop, hr]

/-- Witness for C8: a concrete non-retryable failure is propagated after a
single call with no delays. -/
theorem retry_nonretryable_c8_witness :
    execute_with_retry (fun _ : Nat => (Except.error "fatal" : Except String Nat))
        3 2 2 (fun _ => false) = ⟨1, [], .error (.propagated "fatal")⟩ :=
  (retry_nonretryable_c8 (fun _ => .error "fatal") (fun _ => false) "fatal" rfl).2
    3 2 2 rfl

/-- C1 (amended): within a single delivery, the statuses the worker persists
form a prefix of PROCESSING followed by one terminal status — the worker
never writes PENDING and never writes anything after a terminal write in the
same delivery. The original claim's guarantee across deliveries fails: the
worker does not consult the stored status, so a redelivery writes PROCESSING
over a terminal record (see the counterexample). -/
theorem worker_status_writes_c1 (q : String) (msg : Except String MsgBody)
    (gen : Except String ChatResponse) (store : JobStore) :
    (process_message q msg gen store).writes.map (fun w => w.status) = [] ∨
    (process_message q msg gen store).writes.map (fun w => w.status) = [.processing] ∨
    (process_message q msg gen store).writes.map (fun w => w.status) =
      [.processing, .completed] ∨
    (process_message q msg gen store).writes.map (fun w => w.status) =
      [.processing, .failed] := by
  rcases msg with _ | body
  · simp [process_message]
  · by_cases ht : body.target_mode = some q
    · rcases hj : body.job_id with _ | jid
      · simp [process_message, ht, hj]
      · rcases hr : body.request with _ | rd
        · by_cases hjid : jid = "" <;>
            simp [process_message, ht, hj, hr, update_job_status, pyTruthy, hjid]
        · rcases hp : parseChatRequest rd with e | req
          · by_cases hjid : jid = "" <;>
              simp [process_message, ht, hj, hr, hp, update_job_status, pyTruthy, hjid]
          · rcases hg : gen with e | r
            · by_cases hjid : jid = "" <;>
                simp [process_message, ht, hj, hr, hp, hg, update_job_status, pyTruthy,
                  hjid]
            · simp [process_message, ht, hj, hr, hp, hg, update_job_status]
    · simp [process_message, ht]

/-- Job store holding job `j1` already COMPLETED with a persisted result. -/
def c1Store : JobStore :=
  [("j1", { job_id := "j1", status := .completed, idempotency_key := "k",
            result := some { response := "hello", mode := "gpu",
                             latency_ms := some 100 } })]

/-- A redelivered envelope for job `j1`, addressed to the gpu worker. -/
def c1Body : MsgBody :=
  { job_id := some "j1",
    request := some { message := some "hi", idempotency_key := some "k" },
    target_mode := some "gpu" }

/-- The worker's run on the redelivered envelope for the terminal job. -/
def c1Redelivery : WorkerRun :=
  process_message "gpu" (.ok c1Body)
    (.ok { response := "hello", mode := "gpu", latency_ms := some 250 }) c1Store

/-- Counterexample to C1 as stated: job `j1` is persisted as COMPLETED, yet
the worker's message-processing step, handed a redelivery of `j1`'s
envelope, first writes a PROCESSING record for `j1` — a later write sets a
terminal job's status to a non-terminal one. -/
theorem worker_terminal_overwritten_c1 :
    (getJob c1Store "j1").map (fun r => r.status) = some .completed ∧
    (c1Redelivery.writes.map (fun w => (w.job_id, w.status))).head? =
      some ("j1", .processing) := by
  exact ⟨rfl, rfl⟩

/-- C2 (amended): re-delivering an envelope re-executes the operation and
overwrites the stored record: after a delivery whose generation outcome is
`r`, the stored result for the job is `r` — whatever result was stored
before. The stored result is therefore unchanged only when re-execution
happens to reproduce it exactly; it is not protected by the job's COMPLETED
status. -/
theorem redelivery_overwrites_result_c2 (store : JobStore) (body : MsgBody)
    (jid q : String) (rd : ReqData) (req : ChatRequest) (r : ChatResponse)
    (ht : body.target_mode = some q) (hj : body.job_id = some jid)
    (hr : body.request = some rd) (hp : parseChatRequest rd = .ok req) :
    getJob (process_message q (.ok body) (.ok r) store).store jid =
      some { job_id := jid, status := .completed,
             idempotency_key := pyOrStr rd.idempotency_key jid,
             result := some r, error := none } := by
  simp [process_message, ht, hj, hr, hp, update_job_status, getJob_setJob_self]

/-- Job store where `j1` is COMPLETED with result `c2OldResult`. -/
def c2OldResult : ChatResponse :=
  { response := "hello", mode := "gpu", latency_ms := some 100 }

/-- The re-execution's result: same text, different measured latency. -/
def c2NewResult : ChatResponse :=
  { response := "hello", mode := "gpu", latency_ms := some 250 }

def c2Store : JobStore :=
  [("j1", { job_id := "j1", status := .completed, idempotency_key := "k",
            result := some c2OldResult })]

def c2Body : MsgBody :=
  { job_id := some "j1",
    request := some { message := some "hi", idempotency_key := some "k" },
    target_mode := some "gpu" }

/-- Witness for the amended C2, at the concrete redelivery scenario. -/
theorem redelivery_overwrites_result_c2_witness :
    getJob (process_message "gpu" (.ok c2Body) (.ok c2NewResult) c2Store).store
        "j1" =
      some { job_id := "j1", status := .completed,
             idempotency_key := pyOrStr (some "k") "j1",
             result := some c2NewResult, error := none } :=
  redelivery_overwrites_result_c2 c2Store c2Body "j1" "gpu"
    { message := some "hi", idempotency_key := some "k" }
    { message := "hi", idempotency_key := "k" } c2NewResult rfl rfl rfl rfl

/-- Counterexample to C2 as stated: job `j1` is COMPLETED with a stored
result; delivering the same envelope again leaves a different stored result
(the fresh execution's, here differing in measured latency), so the replay
changed `result`. -/
theorem redelivery_changes_result_c2 :
    ((getJob c2Store "j1").map (fun r => r.result) = some (some c2OldResult)) ∧
    ((getJob (process_message "gpu" (.ok c2Body) (.ok c2NewResult) c2Store).store
        "j1").map (fun r => r.result) = some (some c2NewResult)) ∧
    c2OldResult ≠ c2NewResult := by
  refine ⟨rfl, rfl, ?_⟩
  decide

/-- C4 (amended): the Idempotency Guard caches a successful result only when
it is a `dict`: then it is stored under `(endpoint, key)` with the long
`IDEMPOTENCY_TTL`, and every later call with the same pair returns the
cached response with the operation not executed. (As stated the claim fails
for the chat endpoints, whose `ChatAsyncResponse` is not a dict and is never
cached — see the counterexample.) -/
theorem idempotency_caches_dict_c4 (endpoint key s : String) (cl : RedisClient)
    (hf : cl.failing = false) (hs : s ≠ "")
    (h1 : get_cached_response { client := some cl } key endpoint = none)
    (h2 : is_processing { client := some cl } key endpoint = false) :
    (idempotent_run endpoint key (.ok (.dictVal s)) { client := some cl }).outcome =
        .ok (.dictVal s) ∧
    (idempotent_run endpoint key (.ok (.dictVal s)) { client := some cl }).opCalls = 1 ∧
    (∃ cl2,
      (idempotent_run endpoint key (.ok (.dictVal s)) { client := some cl }).cache.client =
          some cl2 ∧
      storeLookup cl2.store (idempotencyKeyFor endpoint key) =
          some (s, some IDEMPOTENCY_TTL)) ∧
    (∀ op2, idempotent_run endpoint key op2
        (idempotent_run endpoint key (.ok (.dictVal s)) { client := some cl }).cache =
      { cache := (idempotent_run endpoint key (.ok (.dictVal s))
          { client := some cl }).cache,
        outcome := .ok (.dictVal s), opCalls := 0 }) := by
  have hne : idempotencyKeyFor endpoint key ≠ processingKeyFor endpoint key :=
    idemKey_ne_procKey endpoint key endpoint key
  have hrun : idempotent_run endpoint key (.ok (.dictVal s)) { client := some cl } =
      ⟨⟨some ⟨storeDelete (storeSet (storeSet cl.store (processingKeyFor endpoint key) "1" (some 300)) (idempotencyKeyFor endpoint key) s (some IDEMPOTENCY_TTL)) (processingKeyFor endpoint key), false⟩⟩, .ok (.dictVal s), 1⟩ := by
    simp [idempotent_run, h1, h2, RedisCache.set, RedisCache.delete,
      RedisClient.cset, RedisClient.cdel, truthyTTL, hf,
      EndpointResult.isDict, EndpointResult.serialize, IDEMPOTENCY_TTL]
  rw [hrun]
  have hlook : storeLookup (storeDelete (storeSet (storeSet cl.store (processingKeyFor endpoint key) "1" (some 300)) (idempotencyKeyFor endpoint key) s (some IDEMPOTENCY_TTL)) (processingKeyFor endpoint key)) (idempotencyKeyFor endpoint key) = some (s, some IDEMPOTENCY_TTL) := by
    rw [storeLookup_delete_ne _ _ _ hne, storeLookup_set_self]
  refine ⟨rfl, rfl, ⟨_, rfl, hlook⟩, ?_⟩
  intro op2
  have hcached : get_cached_response ⟨some ⟨storeDelete (storeSet (storeSet cl.store (processingKeyFor endpoint key) "1" (some 300)) (idempotencyKeyFor endpoint key) s (some IDEMPOTENCY_TTL)) (processingKeyFor endpoint key), false⟩⟩ key endpoint = some s := by
    simp [get_cached_response, RedisCache.get, RedisClient.cget, hlook, hs]
  simp [idempotent_run, hcached]

/-- Witness for the amended C4: a concrete dict-returning operation on an
empty healthy cache; the result is cached with `IDEMPOTENCY_TTL` and a
second call returns it without executing its own operation. -/
theorem idempotency_caches_dict_c4_witness :
    (idempotent_run "chat_auto" "key-1" (.ok (.dictVal "cached-body"))
        { client := some ⟨[], false⟩ }).outcome = .ok (.dictVal "cached-body") ∧
    (idempotent_run "chat_auto" "key-1" (.ok (.dictVal "cached-body"))
        { client := some ⟨[], false⟩ }).opCalls = 1 ∧
    ((idempotent_run "chat_auto" "key-1" (.ok (.dictVal "cached-body"))
        { client := some ⟨[], false⟩ }).cache.client.map
      (fun cl2 => storeLookup cl2.store (idempotencyKeyFor "chat_auto" "key-1"))) =
        some (some ("cached-body", some IDEMPOTENCY_TTL)) ∧
    idempotent_run "chat_auto" "key-1" (.error "late-op")
        (idempotent_run "chat_auto" "key-1" (.ok (.dictVal "cached-body"))
          { client := some ⟨[], false⟩ }).cache =
      { cache := (idempotent_run "chat_auto" "key-1" (.ok (.dictVal "cached-body"))
          { client := some ⟨[], false⟩ }).cache,
        outcome := .ok (.dictVal "cached-body"), opCalls := 0 } := by
  have h := idempotency_caches_dict_c4 "chat_auto" "key-1" "cached-body"
    ⟨[], false⟩ rfl (by decide) rfl rfl
  obtain ⟨cl2, hcl, hlk⟩ := h.2.2.1
  exact ⟨h.1, h.2.1, by rw [hcl]; simp [hlk], h.2.2.2 (.error "late-op")⟩

/-- An empty, healthy cache for the C4 counterexample. -/
def c4Cache : RedisCache := { client := some { store := [], failing := false } }

/-- The `ChatAsyncResponse` a chat endpoint returns through the wrapper. -/
def c4Resp : ChatAsyncResponse :=
  { job_id := "job-1", status := .pending, idempotency_key := "key-1" }

def c4Run : MwRun :=
  idempotent_run "chat_auto" "key-1" (.ok (.modelVal c4Resp)) c4Cache

/-- Counterexample to C4 as stated: the chat endpoint's successful
`ChatAsyncResponse` is returned but not cached (it is not a dict), so a
later call with the same `(endpoint, key)` executes the operation again
instead of returning a cached response. -/
theorem chat_response_not_cached_c4 :
    c4Run.opCalls = 1 ∧ c4Run.outcome = .ok (.modelVal c4Resp) ∧
    c4Run.cache.get (idempotencyKeyFor "chat_auto" "key-1") = none ∧
    (idempotent_run "chat_auto" "key-1" (.ok (.modelVal c4Resp)) c4Run.cache).opCalls
      = 1 := by
  exact ⟨rfl, rfl, rfl, rfl⟩

/-- C5: when no cached response exists for `(endpoint, key)` but a
processing marker does, the guard raises the `IdempotencyConflict` error,
does not execute the wrapped operation, and leaves the cache unchanged. -/
theorem idempotency_conflict_c5 (endpoint key : String)
    (op : Except String EndpointResult) (cache : RedisCache)
    (h1 : get_cached_response cache key endpoint = none)
    (h2 : is_processing cache key endpoint = true) :
    idempotent_run endpoint key op cache =
      { cache := cache, outcome := .error .conflict, opCalls := 0 } := by
  simp [idempotent_run, h1, h2]

/-- A healthy cache holding only the in-flight marker. -/
def c5Cache : RedisCache :=
  { client := some { store := [("processing:chat_auto:key-1", "1", some 300)],
                     failing := false } }

/-- Witness for C5 at a concrete marked cache. -/
theorem idempotency_conflict_c5_witness :
    idempotent_run "chat_auto" "key-1" (.ok (.dictVal "body")) c5Cache =
      { cache := c5Cache, outcome := .error .conflict, opCalls := 0 } :=
  idempotency_conflict_c5 "chat_auto" "key-1" (.ok (.dictVal "body")) c5Cache
    rfl rfl

/-- C6: a FORCED_GPU request while the GPU backend is unavailable fails
immediately with the 503 backend-unavailable `HTTPException` and publishes
no envelope; the same request in AUTO mode publishes exactly one envelope to
the API queue and succeeds with `target_mode = "api"`. -/
theorem routing_forced_gpu_c6 (req : ChatRequest) (job_id : String) :
    route_to_queue { req with mode := .gpu } false job_id =
      { published := [],
        outcome := .error
          ⟨503, "GPU mode requested but not available. Use /auto or /api instead."⟩ } ∧
    route_to_queue { req with mode := .auto } false job_id =
      { published :=
          [⟨QUEUE_API_REQUESTS, job_id, { req with mode := .auto }, "api",
            req.priority⟩],
        outcome := .ok (job_id, "api") } := by
  constructor
  · simp [route_to_queue]
  · simp [route_to_queue, publish_chat_request, get_queue_name]

/-- C7: `get_job_status` on a `job_id` with no stored record returns the
synthetic record with that `job_id` and status PENDING instead of an error. -/
theorem get_job_status_unknown_c7 (store : JobStore) (jid : String)
    (h : getJob store jid = none) :
    ChatWorker.get_job_status store jid =
      { job_id := jid, status := .pending, idempotency_key := jid,
        result := none, error := none } := by
  simp [ChatWorker.get_job_status, h]

/-- Witness for C7: the empty store. -/
theorem get_job_status_unknown_c7_witness :
    ChatWorker.get_job_status [] "unseen-job" =
      { job_id := "unseen-job", status := .pending,
        idempotency_key := "unseen-job", result := none, error := none } :=
  get_job_status_unknown_c7 [] "unseen-job" rfl

/-- C9: when the cache is unavailable — never connected or the client call
failing — `get` returns `None`, `exists` returns `False`, and `set`/`delete`
silently leave the cache unchanged; no operation raises (each is a total
function because every client call is wrapped in `try/except`). A worker
persistence write through `set` is therefore swallowed, not propagated. -/
theorem cache_never_raises_c9 (cache : RedisCache) (key value : String)
    (ttl : Option Nat) (h : cache.unavailable) :
    cache.get key = none ∧ cache.existsKey key = false ∧
    cache.set key value ttl = cache ∧ cache.delete key = cache := by
  rcases h with hn | ⟨c, hc, hfail⟩
  · simp [RedisCache.get, RedisCache.set, RedisCache.delete,
      RedisCache.existsKey, hn]
  · simp [RedisCache.get, RedisCache.set, RedisCache.delete,
      RedisCache.existsKey, RedisClient.cget, RedisClient.cset,
      RedisClient.cdel, RedisClient.cexists, hc, hfail]

/-- Witness for C9: the never-connected cache. -/
theorem cache_never_raises_c9_witness :
    RedisCache.get ⟨none⟩ "job:j1" = none ∧
    RedisCache.existsKey ⟨none⟩ "job:j1" = false ∧
    RedisCache.set ⟨none⟩ "job:j1" "v" (some 60) = ⟨none⟩ ∧
    RedisCache.delete ⟨none⟩ "job:j1" = ⟨none⟩ :=
  cache_never_raises_c9 ⟨none⟩ "job:j1" "v" (some 60) (Or.inl rfl)

/-- C10: when the consumed envelope's request carries no `idempotency_key`
(absent or `None`), every job record the base worker persists in that
delivery has `idempotency_key` equal to the `job_id`; and the single-queue
`ChatWorker` variant always sets `idempotency_key` to `job_id`. -/
theorem idempotency_key_defaults_c10 :
    (∀ (q : String) (body : MsgBody) (gen : Except String ChatResponse)
        (store : JobStore) (jid : String),
      body.job_id = some jid →
      body.request.bind (fun rd => rd.idempotency_key) = none →
      ∀ w ∈ (process_message q (.ok body) gen store).writes,
        w.job_id = jid ∧ w.idempotency_key = jid) ∧
    (∀ (store : JobStore) (job_id : String) (status : JobStatus)
        (result : Option ChatResponse) (error : Option String),
      ((ChatWorker.update_job_status store job_id status result error).2).idempotency_key
        = job_id) := by
  constructor
  · intro q body gen store jid hj hik
    by_cases ht : body.target_mode = some q
    · rcases hr : body.request with _ | rd
      · by_cases hjid : jid = "" <;>
          simp [process_message, ht, hj, hr, update_job_status, pyTruthy, hjid,
            pyOrStr]
      · have hik2 : rd.idempotency_key = none := by simpa [hr] using hik
        rcases hp : parseChatRequest rd with e | req
        · by_cases hjid : jid = "" <;>
            simp [process_message, ht, hj, hr, hp, update_job_status, pyTruthy,
              hjid, hik2, pyOrStr]
        · rcases hm : rd.message with _ | m <;>
            simp [parseChatRequest, hik2, hm] at hp
    · simp [process_message, ht]
  · intro store job_id status result error
    simp [ChatWorker.update_job_status]

/-- A consumed envelope whose request carries no `idempotency_key`. -/
def c10Body : MsgBody :=
  { job_id := some "j9", request := some { message := some "hi" },
    target_mode := some "gpu" }

/-- The PROCESSING record the worker writes for `c10Body`'s delivery. -/
def c10Write : ChatAsyncResponse :=
  { job_id := "j9", status := .processing, idempotency_key := "j9" }

/-- Witness for C10: both parts at concrete inputs — a concrete record
written during the delivery of `c10Body` carries `idempotency_key = job_id`,
and so does a concrete `ChatWorker` status update. -/
theorem idempotency_key_defaults_c10_witness :
    c10Write ∈ (process_message "gpu" (.ok c10Body) (.error "boom") []).writes ∧
    (c10Write.job_id = "j9" ∧ c10Write.idempotency_key = "j9") ∧
    ((ChatWorker.update_job_status [] "j7" .processing none none).2).idempotency_key
      = "j7" :=
  ⟨by decide,
   idempotency_key_defaults_c10.1 "gpu" c10Body (.error "boom") [] "j9" rfl rfl
     c10Write (by decide),
   idempotency_key_defaults_c10.2 [] "j7" .processing none none⟩

end ChatNemotron
